import Mathlib

/-!
# Verification of the FTD/FMC provisioning polling core

Shallow embedding of the polling / state-machine core of the
`ftd_jenkins_automation` repository:

* `src/steps/step_02_add_dev_fmc.py` — device-registration appearance poll and
  readiness poll (`Step02_ADD_DEV_FMC.fmc_device_registration`);
* `src/steps/step_03_conf_ha.py` — HA-pair creation, appearance poll and
  convergence poll (`Step03_HAConfig.ha_configuration`);
* `src/steps/step_05_fmc_deployment.py` — deployment submission and the
  job-history monitoring loop (`Step05_FMC_DEPLOYMENT.final_deployment_check`).

Each remote interaction is modelled by a *trace*: the list of responses the
controller returns to the successive polls of a loop.  A loop that would keep
running past the end of its (finite) trace returns a distinguished
`outOfTrace` outcome, meaning "still polling".  Helper counters (`polls`,
`warnings`, `waited`) mirror the loop counters of the Python source.
-/

namespace FtdJenkins

/-! ## Step 02 — device registration (`step_02_add_dev_fmc.py`)

The appearance poll (lines 124–147) repeatedly fetches the device inventory
and computes `missing_devices = set(device_names) - set(found_device_names)`;
it exits the loop when `missing_devices` is empty, and returns failure when
`waited_rec > 600` (checked after the fetch, before the sleep;
`waited_rec` starts at 0 and grows by `poll_interval = 10` per iteration).

The readiness poll (lines 149–188) classifies each inventoried expected
device from its detail response and latches ready devices into the
`ready_devices` dict; it exits when every expected device is ready, or at the
`if missing_devices:` branch — which reads the variable left over from the
appearance loop and is never recomputed inside this loop. -/

/-- Python's `str.lower()` on the ASCII status strings involved: character-wise
lower-casing. -/
def pyLower (s : String) : String := ⟨s.data.map Char.toLower⟩

/-- Python's `str.upper()` on the ASCII status strings involved: character-wise
upper-casing. -/
def pyUpper (s : String) : String := ⟨s.data.map Char.toUpper⟩

/-- Healthy health-status values (line 163 of `step_02_add_dev_fmc.py`). -/
def healthyStates : List String := ["green", "yellow", "recovered"]

/-- Line 159–164: the detail response's `healthStatus` is lower-cased and its
`deploymentStatus` upper-cased, then a device counts as ready when the health
is in `healthyStates` and the deployment status equals `"DEPLOYED"`. -/
def classifyReady (health deploy : String) : Bool :=
  healthyStates.contains (pyLower health) && pyUpper deploy == "DEPLOYED"

/-- Spec-worded readiness predicate (§8 of the spec), over the already
normalised pair `(healthStatus, deploymentStatus)`:
`ready ⟺ healthStatus ∈ {green,yellow,recovered} ∧ deploymentStatus == DEPLOYED`. -/
def specReadyClassifier (healthStatus deploymentStatus : String) : Bool :=
  (healthStatus == "green" || healthStatus == "yellow" || healthStatus == "recovered")
    && deploymentStatus == "DEPLOYED"

/-- Line 135: `missing_devices = set(self.device_names) - set(found_device_names)`,
as the sublist of expected names absent from the inventory. -/
def missingOf (deviceNames inventoryNames : List String) : List String :=
  deviceNames.filter (fun n => !(inventoryNames.contains n))

/-- Exit of the appearance poll. -/
inductive AppearOutcome
  | found
  | timedOut
  | outOfTrace
  deriving DecidableEq, Repr

/-- One run of the appearance poll: its exit, the last value held by the
`missing_devices` variable (`none` when no iteration ran, mirroring the
Python variable being unassigned), and the number of inventory fetches. -/
structure AppearRun where
  outcome : AppearOutcome
  missing : Option (List String)
  polls   : Nat
  deriving DecidableEq, Repr

/-- Lines 130–147: the appearance poll.  Each trace element is the list of
device names in one inventory response.  `waitedRec` starts at 0 and grows by
10 per iteration; the timeout check `waited_rec > 600` runs after the fetch
and only when some device is still missing. -/
def appearancePoll (deviceNames : List String) (waitedRec : Nat) :
    List (List String) → AppearRun
  | [] => ⟨.outOfTrace, none, 0⟩
  | inv :: rest =>
    let missing := missingOf deviceNames inv
    if missing.isEmpty then ⟨.found, some missing, 1⟩
    else if waitedRec > 600 then ⟨.timedOut, some missing, 1⟩
    else
      let r := appearancePoll deviceNames (waitedRec + 10) rest
      ⟨r.outcome, some (r.missing.getD missing), r.polls + 1⟩

/-- One device's slice of a readiness-poll observation: its inventory `name`
and the `healthStatus` / `deploymentStatus` fields of its detail response. -/
structure DevObs where
  name   : String
  health : String
  deploy : String
  deriving DecidableEq, Repr

/-- Lines 154–165: fold one inventory-with-details response into the
`ready_devices` dict (modelled by its key list).  A device is added when its
name is expected, it classifies ready, and it is not already present; nothing
is ever removed. -/
def updateReady (deviceNames ready : List String) (inv : List DevObs) : List String :=
  inv.foldl
    (fun acc d =>
      if deviceNames.contains d.name && classifyReady d.health d.deploy
          && !(acc.contains d.name)
      then acc ++ [d.name] else acc)
    ready

/-- Exit of the readiness poll. -/
inductive ReadyExit
  | success
  | vanished
  | outOfTrace
  deriving DecidableEq, Repr

/-- One run of the readiness poll: its exit, the final `ready_devices` key
list, the number of fetches, and how many times the soft-ceiling warning of
line 179–180 fired. -/
structure ReadyRun where
  outcome  : ReadyExit
  ready    : List String
  polls    : Nat
  warnings : Nat
  deriving DecidableEq, Repr

/-- Lines 149–184: the readiness poll.  `missingDevices` is the value of the
`missing_devices` variable on entry — the loop reads it (line 171) but never
recomputes it.  `waited` grows by `pool_interval_reg = 30` per iteration; at
`waited > 1800` the loop only logs a warning (lines 179–180) and keeps going. -/
def readinessPoll (deviceNames missingDevices ready : List String) (waited : Nat) :
    List (List DevObs) → ReadyRun
  | [] => ⟨.outOfTrace, ready, 0, 0⟩
  | inv :: rest =>
    let ready1 := updateReady deviceNames ready inv
    if !missingDevices.isEmpty then ⟨.vanished, ready1, 1, 0⟩
    else if ready1.length = deviceNames.length then ⟨.success, ready1, 1, 0⟩
    else
      let w := if waited > 1800 then 1 else 0
      let r := readinessPoll deviceNames missingDevices ready1 (waited + 30) rest
      ⟨r.outcome, r.ready, r.polls + 1, r.warnings + w⟩

/-- Overall exit of `fmc_device_registration` (from the appearance poll on). -/
inductive RegResult
  | success
  | appearTimeout (missing : List String)
  | deviceVanishedFailure
  | notReadyFailure
  | outOfTrace
  deriving DecidableEq, Repr

/-- Lines 124–191: composition of the two polls.  The readiness loop receives
the `missing_devices` value left by the appearance loop; both `break` exits of
the readiness loop fall through to the `len(ready) < len(names)` check of
lines 186–188. -/
def fmcDeviceRegistration (deviceNames : List String)
    (appearTrace : List (List String)) (readyTrace : List (List DevObs)) :
    RegResult :=
  let a := appearancePoll deviceNames 0 appearTrace
  match a.outcome with
  | .timedOut => .appearTimeout (a.missing.getD [])
  | .outOfTrace => .outOfTrace
  | .found =>
    let r := readinessPoll deviceNames (a.missing.getD []) [] 0 readyTrace
    match r.outcome with
    | .outOfTrace => .outOfTrace
    | .vanished =>
      if r.ready.length < deviceNames.length then .deviceVanishedFailure else .success
    | .success =>
      if r.ready.length < deviceNames.length then .notReadyFailure else .success

/-- Recogniser for the vanished-device failure exit of the registration step. -/
def isVanishedFailure : RegResult → Bool
  | .deviceVanishedFailure => true
  | _ => false

/-! ## Step 03 — HA pair configuration (`step_03_conf_ha.py`)

`Step03_HAConfig.ha_configuration` (lines 65–141): resolve failover-interface
ids over the device inventory (lines 75–86), build the HA payload from
`devices_list[0]` and `devices_list[1]` (lines 88–94, an `IndexError` when
fewer than two entries were collected), POST it without inspecting the
response (line 95), then run the appearance poll (lines 98–116) and the
convergence poll (lines 117–137), both driven by the single `wait_ha`
counter against `max_ha_wait = 1800` with `poll_interval = 10`. -/

/-- One entry of an `items` element of a physical-interfaces response. -/
structure IfaceRec where
  name : String
  id   : String
  deriving DecidableEq, Repr

/-- One device of the inventory response, together with the `items` of the
physical-interfaces response for its id. -/
structure HaDevice where
  name       : String
  id         : String
  interfaces : List IfaceRec
  deriving DecidableEq, Repr

/-- One element appended to `self.devices_list` (line 86). -/
structure HaEntry where
  name        : String
  id          : String
  interfaceId : String
  deriving DecidableEq, Repr

/-- Lines 75–86: for every inventoried device whose name is expected, append
one `devices_list` entry per physical interface named `haInterface`. -/
def resolveDevicesList (deviceNames : List String) (haInterface : String)
    (inventory : List HaDevice) : List HaEntry :=
  inventory.foldl
    (fun acc d =>
      if deviceNames.contains d.name then
        acc ++ (d.interfaces.filter (fun i => i.name == haInterface)).map
          (fun i => ⟨d.name, d.id, i.id⟩)
      else acc)
    []

/-- The fields of `ha_payload` written at lines 89–94. -/
structure HaPayload where
  primaryId       : String
  primaryName     : String
  secondaryId     : String
  secondaryName   : String
  lanIfaceId      : String
  statefulIfaceId : String
  deriving DecidableEq, Repr

/-- Lines 89–94: the payload is built from `devices_list[0]` and
`devices_list[1]`; with fewer than two entries the indexing raises
`IndexError` (modelled as `none`) before the POST of line 95. -/
def buildHaPayload : List HaEntry → Option HaPayload
  | e0 :: e1 :: _ =>
    some ⟨e0.id, e0.name, e1.id, e1.name, e0.interfaceId, e1.interfaceId⟩
  | _ => none

/-- Lines 105–109: first HA pair in the list response whose name matches,
and its id. -/
def lookupPair (pairName : String) : List (String × String) → Option String
  | [] => none
  | (n, i) :: rest => if n == pairName then some i else lookupPair pairName rest

/-- Exit of the HA appearance poll; `found` carries the resolved pair id,
the value of `wait_ha` when the loop exits, and the number of fetches. -/
inductive HaAppear
  | found (haId : String) (waitAfter : Nat) (polls : Nat)
  | timedOut (polls : Nat)
  | outOfTrace
  deriving DecidableEq, Repr

/-- Lines 101–116: the appearance poll.  Each trace element is one HA-pair
list response as `(name, id)` pairs.  The timeout check `wait_ha > 1800`
(line 111) runs only when the pair was not found; `wait_ha` is not reset when
the loop exits, so the found iteration's value is handed onward. -/
def haAppearancePoll (pairName : String) (waitHa : Nat) :
    List (List (String × String)) → HaAppear
  | [] => .outOfTrace
  | pairs :: rest =>
    match lookupPair pairName pairs with
    | some i => .found i waitHa 1
    | none =>
      if waitHa > 1800 then .timedOut 1
      else
        match haAppearancePoll pairName (waitHa + 10) rest with
        | .found i w p => .found i w (p + 1)
        | .timedOut p => .timedOut (p + 1)
        | .outOfTrace => .outOfTrace

/-- Lines 126: `primary_status == "active" and secondary_status == "standby"`,
on the lower-cased `currentStatus` fields (lines 123–124). -/
def isActiveStandby (x : String × String) : Bool :=
  pyLower x.1 == "active" && pyLower x.2 == "standby"

/-- Line 129: `primary_status == "failed" or secondary_status == "failed"`,
again on the lower-cased fields. -/
def isFailedEither (x : String × String) : Bool :=
  pyLower x.1 == "failed" || pyLower x.2 == "failed"

/-- Exit of the HA convergence poll. -/
inductive ConvOutcome
  | converged
  | haFailed
  | timedOut
  | outOfTrace
  deriving DecidableEq, Repr

/-- Lines 118–137: the convergence poll over a trace of raw
`(primaryStatus.currentStatus, secondaryStatus.currentStatus)` pairs,
returning its exit and the number of fetches.  The checks run in source
order: active/standby, then failed, then `wait_ha > 1800`.  `waitHa` starts
at whatever the appearance poll left in `wait_ha`. -/
def haConvergencePoll (waitHa : Nat) : List (String × String) → ConvOutcome × Nat
  | [] => (.outOfTrace, 0)
  | x :: rest =>
    if isActiveStandby x then (.converged, 1)
    else if isFailedEither x then (.haFailed, 1)
    else if waitHa > 1800 then (.timedOut, 1)
    else
      let r := haConvergencePoll (waitHa + 10) rest
      (r.1, r.2 + 1)

/-- Overall exit of `ha_configuration`.  `pythonError` is the `IndexError` of
lines 89–94 escaping `ha_configuration` (only `RequestException` is caught
there) into `execute`'s blanket handler; `requestError` is a
connection-level exception during the POST (line 139 handler);
`errInterfaceNotFound` is the typed error kind §4.2/§7 of the spec calls
`InterfaceNotFound` — no code path produces it, it exists to state the
spec's claim about it. -/
inductive HaResult
  | success (haId : String)
  | appearTimeout
  | haFailedExit
  | convergeTimeout
  | pythonError
  | errInterfaceNotFound
  | requestError
  | outOfTrace
  deriving DecidableEq, Repr

/-- Lines 65–141: `ha_configuration` from interface resolution onward.
`postResponse` is the HA-creation POST result: `none` for a connection-level
exception, `some s` for an HTTP response with status code `s` — which the
source never inspects (line 95 has no status check and no
`raise_for_status`). -/
def haConfiguration (deviceNames : List String) (haInterface : String)
    (inventory : List HaDevice) (pairName : String) (postResponse : Option Nat)
    (pairsTrace : List (List (String × String)))
    (statusTrace : List (String × String)) : HaResult :=
  match buildHaPayload (resolveDevicesList deviceNames haInterface inventory) with
  | none => .pythonError
  | some _ =>
    match postResponse with
    | none => .requestError
    | some _ =>
      match haAppearancePoll pairName 0 pairsTrace with
      | .timedOut _ => .appearTimeout
      | .outOfTrace => .outOfTrace
      | .found haId w _ =>
        match haConvergencePoll w statusTrace with
        | (.converged, _) => .success haId
        | (.haFailed, _) => .haFailedExit
        | (.timedOut, _) => .convergeTimeout
        | (.outOfTrace, _) => .outOfTrace

/-! ## Step 05 — deployment monitor (`step_05_fmc_deployment.py`)

`Step05_FMC_DEPLOYMENT.final_deployment_check` (lines 133–219): after a
deployable-device match, the deployment POST is checked for status 202
(lines 176–180, non-202 returns `False`); then the monitoring loop
(lines 187–213) polls the job-history feed while `timeout_counter < 300`,
reads the most recent job's `deviceList`, and for the entry matching the
target device id returns `True` on `SUCCEEDED` and `False` on `FAILED`.
Any in-loop exception is swallowed and counted as one interval
(lines 210–213).  When the loop exhausts its budget, control falls out of
the `for` loops to the `return True` of line 219. -/

/-- One entry of the most recent job's `deviceList`. -/
structure JobDev where
  uuid   : String
  name   : String
  status : String
  deriving DecidableEq, Repr

/-- Lines 196–206: scan the latest job's device list for the target id; the
first matching entry with `SUCCEEDED` yields `some true`, with `FAILED`
`some false`; otherwise the scan continues and ends with `none`. -/
def scanDevices (targetId : String) : List JobDev → Option Bool
  | [] => none
  | d :: rest =>
    if d.uuid == targetId then
      if d.status == "SUCCEEDED" then some true
      else if d.status == "FAILED" then some false
      else scanDevices targetId rest
    else scanDevices targetId rest

/-- A job-history observation that does not settle the target device:
either the fetch raised (swallowed by lines 210–213) or the latest job's
device list has no terminal entry for the target. -/
def nonTerminalObs (targetId : String) : Option (List JobDev) → Bool
  | none => true
  | some devs => scanDevices targetId devs == none

/-- Exit of the monitoring loop. -/
inductive MonExit
  | succeeded
  | failed
  | timedOut
  | outOfTrace
  deriving DecidableEq, Repr

/-- Lines 187–213: the monitoring loop.  Each trace element is `none` for an
in-loop exception (swallowed, one interval charged) or `some devs` for the
latest job's device list.  `timeout_counter` starts at 0, grows by
`poll_interval = 10`, and the `while timeout_counter < max_timeout` guard is
tested before each fetch with `max_timeout = 300`. -/
def monitorLoop (targetId : String) (counter : Nat) :
    List (Option (List JobDev)) → MonExit
  | [] => if 300 ≤ counter then .timedOut else .outOfTrace
  | obs :: rest =>
    if 300 ≤ counter then .timedOut
    else
      match obs with
      | none => monitorLoop targetId (counter + 10) rest
      | some devs =>
        match scanDevices targetId devs with
        | some true => .succeeded
        | some false => .failed
        | none => monitorLoop targetId (counter + 10) rest

/-- Overall exit of the deployment-submission-and-monitor part of
`final_deployment_check`. -/
inductive DeployResult
  | success
  | deployRejected
  | deployFailed
  | outOfTrace
  deriving DecidableEq, Repr

/-- Lines 175–219 for the run that matched one deployable device and one HA
pair (the shape of every pipeline run): a non-202 deployment POST returns
`False` (lines 176–180); otherwise the monitoring loop runs, `SUCCEEDED`
maps to `return True`, `FAILED` to `return False`, and exhaustion of the
`while` budget falls through the enclosing `for` loops to the
`return True` of line 219. -/
def finalDeploymentCheckMonitor (targetId : String) (postStatusCode : Nat)
    (trace : List (Option (List JobDev))) : DeployResult :=
  if postStatusCode == 202 then
    match monitorLoop targetId 0 trace with
    | .succeeded => .success
    | .failed => .deployFailed
    | .timedOut => .success
    | .outOfTrace => .outOfTrace
  else .deployRejected

/-! ## Helper lemmas -/

/-- One fold step of the readiness classification only ever appends. -/
theorem readyStep_mem (deviceNames acc : List String) (d : DevObs) (n : String)
    (hn : n ∈ acc) :
    n ∈ (if deviceNames.contains d.name && classifyReady d.health d.deploy
            && !(acc.contains d.name)
         then acc ++ [d.name] else acc) := by
  split
  · exact List.mem_append_left _ hn
  · exact hn

/-- The `ready_devices` key list only grows across one readiness observation. -/
theorem updateReady_mem (deviceNames : List String) (inv : List DevObs) :
    ∀ (ready : List String) (n : String), n ∈ ready →
      n ∈ updateReady deviceNames ready inv := by
  induction inv with
  | nil => intro ready n hn; simpa [updateReady] using hn
  | cons d rest ih =>
    intro ready n hn
    simpa [updateReady, List.foldl_cons] using
      ih _ n (readyStep_mem deviceNames ready d n hn)

/-- The vanished-branch recogniser rejects both results the final
`len(ready) < len(names)` check of the success exit can produce. -/
theorem isVanishedFailure_if (c : Prop) [Decidable c] :
    isVanishedFailure
      (if c then RegResult.notReadyFailure else RegResult.success) = false := by
  split <;> rfl

/-- When the appearance poll exits through its success branch, the final value
of `missing_devices` is the empty set. -/
theorem appearancePoll_found_missing (deviceNames : List String) :
    ∀ (trace : List (List String)) (w : Nat),
      (appearancePoll deviceNames w trace).outcome = .found →
      (appearancePoll deviceNames w trace).missing = some [] := by
  intro trace
  induction trace with
  | nil => intro w h; simp [appearancePoll] at h
  | cons inv rest ih =>
    intro w h
    by_cases h1 : (missingOf deviceNames inv).isEmpty
    · have he : missingOf deviceNames inv = [] := by
        simpa [List.isEmpty_iff] using h1
      simp [appearancePoll, h1, he]
    · by_cases h2 : w > 600
      · simp [appearancePoll, h1, h2] at h
      · have h' : (appearancePoll deviceNames (w + 10) rest).outcome = .found := by
          simpa [appearancePoll, h1, h2] using h
        simp [appearancePoll, h1, h2, ih (w + 10) h']

/-- Entered with an empty `missing_devices`, the readiness poll can only exit
through the all-ready branch or run out of trace. -/
theorem readinessPoll_empty_missing (deviceNames : List String) :
    ∀ (trace : List (List DevObs)) (ready : List String) (waited : Nat),
      (readinessPoll deviceNames [] ready waited trace).outcome = .success ∨
      (readinessPoll deviceNames [] ready waited trace).outcome = .outOfTrace := by
  intro trace
  induction trace with
  | nil => intro ready waited; right; rfl
  | cons inv rest ih =>
    intro ready waited
    by_cases hl : (updateReady deviceNames ready inv).length = deviceNames.length
    · left; simp [readinessPoll, hl]
    · have := ih (updateReady deviceNames ready inv) (waited + 30)
      simpa [readinessPoll, hl] using this

/-- Every iteration of the appearance poll in which the only expected device
is still absent: with `fw-c` never inventoried, starting the poll with
`waited_rec = 610 - 10 * j` times out after exactly `j + 1` fetches. -/
theorem appearancePoll_never_appears (j : Nat) :
    ∀ (trace : List (List String)),
      j ≤ 61 →
      (∀ inv ∈ trace, inv.contains "fw-c" = false) →
      j + 1 ≤ trace.length →
      appearancePoll ["fw-c"] (610 - 10 * j) trace =
        ⟨.timedOut, some ["fw-c"], j + 1⟩ := by
  induction j with
  | zero =>
    intro trace _ hmiss hlen
    match trace with
    | inv :: rest =>
      have hc : "fw-c" ∉ inv := by simpa using hmiss inv (by simp)
      have hm : missingOf ["fw-c"] inv = ["fw-c"] := by simp [missingOf, hc]
      simp [appearancePoll, hm]
  | succ j ih =>
    intro trace hj hmiss hlen
    match trace with
    | inv :: rest =>
      have hc : "fw-c" ∉ inv := by simpa using hmiss inv (by simp)
      have hm : missingOf ["fw-c"] inv = ["fw-c"] := by simp [missingOf, hc]
      have hw : ¬ (610 - 10 * (j + 1) > 600) := by omega
      have harith : 610 - 10 * (j + 1) + 10 = 610 - 10 * j := by omega
      have hrec := ih rest (by omega) (fun i hi => hmiss i (by simp [hi]))
        (by simpa using hlen)
      simp [appearancePoll, hm, hw, harith, hrec]

/-! ## Claim theorems -/

/-- Claim C8: readiness classification is a pure function of the pair
`(healthStatus, deploymentStatus)` — the classification of
`step_02_add_dev_fmc.py` lines 159–164 agrees with the spec-worded predicate
on the case-normalised statuses, and classifying the same input twice gives
the same boolean. -/
theorem c8_readiness_classification_pure (health deploy : String) :
    classifyReady health deploy =
      specReadyClassifier (pyLower health) (pyUpper deploy) ∧
    classifyReady health deploy = classifyReady health deploy := by
  refine ⟨?_, rfl⟩
  simp only [classifyReady, specReadyClassifier, healthyStates, List.contains_cons,
    List.contains_nil, Bool.or_false, Bool.or_assoc]

/-- Claim C10: the ready set is latched and monotone non-decreasing — a name
already in `ready_devices` survives every further observation, and as soon as
one observation brings the ready count to the expected count the readiness
poll exits successfully on that very poll, whatever the rest of the trace
(e.g. later polls reporting red/NOT_DEPLOYED) would have said. -/
theorem c10_ready_set_latched :
    (∀ (deviceNames ready : List String) (inv : List DevObs) (n : String),
      n ∈ ready → n ∈ updateReady deviceNames ready inv) ∧
    (∀ (deviceNames ready : List String) (waited : Nat) (inv : List DevObs)
       (rest : List (List DevObs)),
      (updateReady deviceNames ready inv).length = deviceNames.length →
      readinessPoll deviceNames [] ready waited (inv :: rest) =
        ⟨.success, updateReady deviceNames ready inv, 1, 0⟩) := by
  constructor
  · intro deviceNames ready inv n hn
    exact updateReady_mem deviceNames inv ready n hn
  · intro deviceNames ready waited inv rest h
    simp [readinessPoll, h]

/-- Witness for C10 at a concrete run: `fw-a` already latched stays latched,
and the poll that completes the ready set returns success at once even though
the next observation would have reported `fw-a` as red/NOT_DEPLOYED. -/
theorem c10_witness :
    ("fw-a" ∈ updateReady ["fw-a", "fw-b"] ["fw-a"] [⟨"fw-b", "green", "DEPLOYED"⟩]) ∧
    readinessPoll ["fw-a", "fw-b"] [] ["fw-a"] 0
      [[⟨"fw-b", "green", "DEPLOYED"⟩], [⟨"fw-a", "red", "NOT_DEPLOYED"⟩]] =
      ⟨.success, ["fw-a", "fw-b"], 1, 0⟩ :=
  ⟨c10_ready_set_latched.1 ["fw-a", "fw-b"] ["fw-a"] [⟨"fw-b", "green", "DEPLOYED"⟩]
      "fw-a" (by decide),
   (c10_ready_set_latched.2 ["fw-a", "fw-b"] ["fw-a"] 0 [⟨"fw-b", "green", "DEPLOYED"⟩]
      [[⟨"fw-a", "red", "NOT_DEPLOYED"⟩]] (by decide)).trans (by decide)⟩

/-- Claim C2 (code bug): the vanished-device exit of the readiness poll is
unreachable.  The `if missing_devices:` check of line 171 reads the variable
left by the appearance loop — which exits successfully only with an empty
`missing_devices` and is never recomputed inside the readiness loop — so no
run of `fmc_device_registration` returns through the vanished-device branch;
concretely, a run in which `fw-b` appears, is observed, and then disappears
from the inventory just keeps polling (here: runs out of trace). -/
theorem c2_vanished_branch_dead :
    (∀ (deviceNames : List String) (appearTrace : List (List String))
       (readyTrace : List (List DevObs)),
      isVanishedFailure (fmcDeviceRegistration deviceNames appearTrace readyTrace) =
        false) ∧
    fmcDeviceRegistration ["fw-a", "fw-b"] [["fw-a", "fw-b"]]
      [[⟨"fw-a", "green", "DEPLOYED"⟩, ⟨"fw-b", "red", "NOT_DEPLOYED"⟩],
       [⟨"fw-a", "green", "DEPLOYED"⟩]] = .outOfTrace := by
  constructor
  · intro deviceNames appearTrace readyTrace
    simp only [fmcDeviceRegistration]
    cases ho : (appearancePoll deviceNames 0 appearTrace).outcome with
    | timedOut => simp [isVanishedFailure]
    | outOfTrace => simp [isVanishedFailure]
    | found =>
      have hm := appearancePoll_found_missing deviceNames appearTrace 0 ho
      rw [hm]
      simp only [Option.getD_some]
      rcases readinessPoll_empty_missing deviceNames readyTrace [] 0 with h | h
      · rw [h]
        exact isVanishedFailure_if _
      · rw [h]
        rfl
  · decide

/-- Claim C9: the readiness poll has no hard timeout.  Past 1800 seconds of
accumulated wait each iteration fires the warning of lines 179–180 and
continues into the rest of the trace unchanged, and the poll's only possible
exits are all-devices-ready, the vanished-device branch, or still-polling —
there is no elapsed-time exit. -/
theorem c9_readiness_soft_ceiling :
    (∀ (deviceNames ready : List String) (waited : Nat) (inv : List DevObs)
       (rest : List (List DevObs)),
      1800 < waited →
      (updateReady deviceNames ready inv).length ≠ deviceNames.length →
      readinessPoll deviceNames [] ready waited (inv :: rest) =
        ⟨(readinessPoll deviceNames [] (updateReady deviceNames ready inv)
            (waited + 30) rest).outcome,
         (readinessPoll deviceNames [] (updateReady deviceNames ready inv)
            (waited + 30) rest).ready,
         (readinessPoll deviceNames [] (updateReady deviceNames ready inv)
            (waited + 30) rest).polls + 1,
         (readinessPoll deviceNames [] (updateReady deviceNames ready inv)
            (waited + 30) rest).warnings + 1⟩) ∧
    (∀ (deviceNames missingDevices ready : List String) (waited : Nat)
       (trace : List (List DevObs)),
      (readinessPoll deviceNames missingDevices ready waited trace).outcome =
          .success ∨
      (readinessPoll deviceNames missingDevices ready waited trace).outcome =
          .vanished ∨
      (readinessPoll deviceNames missingDevices ready waited trace).outcome =
          .outOfTrace) := by
  constructor
  · intro deviceNames ready waited inv rest hw hl
    simp [readinessPoll, hl, hw]
  · intro deviceNames missingDevices ready waited trace
    induction trace generalizing ready waited with
    | nil => right; right; rfl
    | cons inv rest ih =>
      by_cases hm : missingDevices.isEmpty
      · by_cases hl : (updateReady deviceNames ready inv).length = deviceNames.length
        · left; simp [readinessPoll, hm, hl]
        · have := ih (updateReady deviceNames ready inv) (waited + 30)
          simpa [readinessPoll, hm, hl] using this
      · right; left; simp [readinessPoll, hm]

/-- Witness for C9: one poll at `waited = 1801` warns once, keeps polling,
and the run's exit is still-polling, not any timeout. -/
theorem c9_witness :
    1800 < 1801 ∧
    readinessPoll ["fw-a"] [] [] 1801 [[]] = ⟨.outOfTrace, [], 1, 1⟩ :=
  ⟨by decide,
   (c9_readiness_soft_ceiling.1 ["fw-a"] [] 1801 [] [] (by decide)
      (by decide)).trans (by decide)⟩

/-- Claim C7 counterexample: with `fw-c` never appearing within the 600-second
budget at 10-second intervals, the appearance poll performs exactly 62
inventory fetches — not the 60 the claim states — before returning the
timeout with `missing = {fw-c}` (the check `waited_rec > 600` is strict and
runs after the fetch, so the fetches at `waited_rec = 600` and `610` both
happen). -/
theorem c7_counterexample :
    appearancePoll ["fw-c"] 0 (List.replicate 70 ([] : List String)) =
      ⟨.timedOut, some ["fw-c"], 62⟩ := by
  decide

/-- Claim C7 as amended: an appearance poll whose expected device `fw-c` never
appears in any inventory response performs exactly 62 polls and then returns
the timeout carrying the still-missing set `{fw-c}`. -/
theorem c7_amended (trace : List (List String))
    (hmiss : ∀ inv ∈ trace, inv.contains "fw-c" = false)
    (hlen : 62 ≤ trace.length) :
    appearancePoll ["fw-c"] 0 trace = ⟨.timedOut, some ["fw-c"], 62⟩ := by
  have h := appearancePoll_never_appears 61 trace (by omega) hmiss (by omega)
  simpa using h

/-- Witness for the amended C7 on a trace of 65 inventories that list only
other devices. -/
theorem c7_witness :
    (∀ inv ∈ List.replicate 65 (["fw-x"] : List String),
      inv.contains "fw-c" = false) ∧
    appearancePoll ["fw-c"] 0 (List.replicate 65 (["fw-x"] : List String)) =
      ⟨.timedOut, some ["fw-c"], 62⟩ :=
  ⟨by decide, c7_amended (List.replicate 65 ["fw-x"]) (by decide) (by decide)⟩

/-- A status pair with `failed` on either side never satisfies the
active/standby test that the convergence loop checks first. -/
theorem activeStandby_false_of_failed (x : String × String)
    (h : isFailedEither x = true) : isActiveStandby x = false := by
  have h' : pyLower x.1 = "failed" ∨ pyLower x.2 = "failed" := by
    simpa [isFailedEither] using h
  rcases h' with e | e
  · simp [isActiveStandby, e, show (("failed" : String) == "active") = false from rfl]
  · simp [isActiveStandby, e, show (("failed" : String) == "standby") = false from rfl]

/-- Skipping a non-terminal, non-timed-out segment of the convergence trace:
the poll passes through `pre`, adding 10 seconds of wait and one poll per
element. -/
theorem haConvergencePoll_skip (pre : List (String × String)) :
    ∀ (tail : List (String × String)) (w : Nat),
      (∀ y ∈ pre, isActiveStandby y = false ∧ isFailedEither y = false) →
      (∀ i, i < pre.length → w + 10 * i ≤ 1800) →
      haConvergencePoll w (pre ++ tail) =
        ((haConvergencePoll (w + 10 * pre.length) tail).1,
         (haConvergencePoll (w + 10 * pre.length) tail).2 + pre.length) := by
  induction pre with
  | nil => intro tail w _ _; simp
  | cons y pre ih =>
    intro tail w hnt hb
    have hy := hnt y (List.mem_cons_self y pre)
    have hw : ¬ (1800 < w) := by
      have := hb 0 (by simp)
      omega
    have harith : w + 10 + 10 * pre.length = w + 10 * (pre.length + 1) := by omega
    have ihh := ih tail (w + 10)
      (fun z hz => hnt z (List.mem_cons_of_mem y hz))
      (fun i hi => by
        have := hb (i + 1) (by simpa using Nat.succ_lt_succ hi)
        omega)
    rw [harith] at ihh
    simp only [List.cons_append, haConvergencePoll, hy.1, hy.2, Bool.false_eq_true,
      if_false, hw, ite_false, List.append_eq, ihh, List.length_cons, Prod.mk.injEq,
      true_and]
    omega

/-- Claim C6: in the HA convergence poll the first terminal observation
decides the run — `(active, standby)` (case-insensitively) returns success on
that very poll, and a pair with `failed` on either side, observed before any
`(active, standby)`, returns the HA-failed exit on that very poll with no
further polls. -/
theorem c6_convergence_first_terminal (pre : List (String × String))
    (x : String × String) (suff : List (String × String)) (w : Nat)
    (hpre : ∀ y ∈ pre, isActiveStandby y = false ∧ isFailedEither y = false)
    (hbudget : ∀ i, i < pre.length → w + 10 * i ≤ 1800) :
    (isActiveStandby x = true →
      haConvergencePoll w (pre ++ x :: suff) = (.converged, pre.length + 1)) ∧
    (isFailedEither x = true →
      haConvergencePoll w (pre ++ x :: suff) = (.haFailed, pre.length + 1)) := by
  have hs := haConvergencePoll_skip pre (x :: suff) w hpre hbudget
  constructor
  · intro hx
    have hx1 : haConvergencePoll (w + 10 * pre.length) (x :: suff) =
        (.converged, 1) := by
      simp [haConvergencePoll, hx]
    rw [hs, hx1]
    simp [Nat.add_comm]
  · intro hx
    have hx1 : haConvergencePoll (w + 10 * pre.length) (x :: suff) =
        (.haFailed, 1) := by
      simp [haConvergencePoll, activeStandby_false_of_failed x hx, hx]
    rw [hs, hx1]
    simp [Nat.add_comm]

/-- Witness for C6 on concrete traces with mixed-case statuses: a run ending
in `(Active, STANDBY)` converges at poll 2, and a run observing
`(active, FAILED)` at poll 2 fails there, before the later
`(active, standby)` is ever fetched. -/
theorem c6_witness :
    haConvergencePoll 0 [("NEGOTIATING", "negotiating"), ("Active", "STANDBY")] =
      (.converged, 2) ∧
    haConvergencePoll 0
      [("negotiating", "negotiating"), ("active", "FAILED"), ("active", "standby")] =
      (.haFailed, 2) :=
  ⟨(c6_convergence_first_terminal [("NEGOTIATING", "negotiating")]
      ("Active", "STANDBY") [] 0 (by decide) (by decide)).1 (by decide),
   (c6_convergence_first_terminal [("negotiating", "negotiating")]
      ("active", "FAILED") [("active", "standby")] 0 (by decide) (by decide)).2
      (by decide)⟩

set_option maxRecDepth 4000 in
/-- Claim C4 counterexample: the convergence poll does not have its own
1800-second budget.  Here the pair appears only on the 182nd appearance poll,
with `wait_ha = 1810` already accumulated; the very first convergence poll —
zero seconds of convergence-only wait, far below 1800 — then returns the
timeout, and the whole step exits through the convergence-timeout branch. -/
theorem c4_counterexample :
    haAppearancePoll "fw-a_HA" 0
        (List.replicate 181 [] ++ [[("fw-a_HA", "ha-123")]]) =
      .found "ha-123" 1810 182 ∧
    haConvergencePoll 1810 [("negotiating", "negotiating")] = (.timedOut, 1) ∧
    haConfiguration ["fw-a", "fw-b"] "GigabitEthernet0/3"
      [⟨"fw-a", "id-a", [⟨"GigabitEthernet0/3", "if-a"⟩]⟩,
       ⟨"fw-b", "id-b", [⟨"GigabitEthernet0/3", "if-b"⟩]⟩]
      "fw-a_HA" (some 202) (List.replicate 181 [] ++ [[("fw-a_HA", "ha-123")]])
      [("negotiating", "negotiating")] = .convergeTimeout := by
  refine ⟨by decide, by decide, by decide⟩

/-- Claim C4 as amended: the appearance poll and the convergence poll share
the single `wait_ha` counter against `max_ha_wait = 1800`.  The convergence
poll starts at whatever accumulated wait the appearance poll handed over, and
returns the timeout at the first non-terminal observation whose carried-over
total exceeds 1800 seconds — counted from the start of appearance polling,
not from the start of convergence polling. -/
theorem c4_shared_wait_budget :
    (∀ (k : Nat) (trace : List (String × String)) (w : Nat),
      (∀ y ∈ trace, isActiveStandby y = false ∧ isFailedEither y = false) →
      (∀ i, i < k → w + 10 * i ≤ 1800) →
      1800 < w + 10 * k → k < trace.length →
      haConvergencePoll w trace = (.timedOut, k + 1)) ∧
    (∀ (deviceNames : List String) (haInterface pairName : String)
       (inventory : List HaDevice) (s : Nat)
       (pairsTrace : List (List (String × String)))
       (statusTrace : List (String × String)) (pl : HaPayload)
       (haId : String) (w p : Nat),
      buildHaPayload (resolveDevicesList deviceNames haInterface inventory) =
          some pl →
      haAppearancePoll pairName 0 pairsTrace = .found haId w p →
      haConfiguration deviceNames haInterface inventory pairName (some s)
          pairsTrace statusTrace =
        (match haConvergencePoll w statusTrace with
         | (.converged, _) => HaResult.success haId
         | (.haFailed, _) => HaResult.haFailedExit
         | (.timedOut, _) => HaResult.convergeTimeout
         | (.outOfTrace, _) => HaResult.outOfTrace)) := by
  constructor
  · intro k
    induction k with
    | zero =>
      intro trace w hnt _ hk hlen
      cases trace with
      | nil => exact absurd hlen (by simp)
      | cons y rest =>
        have hy := hnt y (List.mem_cons_self y rest)
        have hw : 1800 < w := by omega
        simp [haConvergencePoll, hy.1, hy.2, hw]
    | succ k ih =>
      intro trace w hnt hb hk hlen
      cases trace with
      | nil => exact absurd hlen (by simp)
      | cons y rest =>
        have hy := hnt y (List.mem_cons_self y rest)
        have hw : ¬ (1800 < w) := by
          have := hb 0 (by omega)
          omega
        have ihh := ih rest (w + 10)
          (fun z hz => hnt z (List.mem_cons_of_mem y hz))
          (fun i hi => by
            have := hb (i + 1) (by omega)
            omega)
          (by omega)
          (by
            simp only [List.length_cons] at hlen
            omega)
        simp [haConvergencePoll, hy.1, hy.2, hw, ihh]
  · intro deviceNames haInterface pairName inventory s pairsTrace statusTrace pl
      haId w p hb hf
    simp only [haConfiguration, hb, hf]

/-- Witness for the amended C4: entering the convergence poll with 2000
seconds already on the shared counter, the first non-terminal observation
times out immediately. -/
theorem c4_witness :
    (∀ y ∈ [(("waiting" : String), ("waiting" : String))],
      isActiveStandby y = false ∧ isFailedEither y = false) ∧
    haConvergencePoll 2000 [("waiting", "waiting")] = (.timedOut, 1) :=
  ⟨by decide,
   c4_shared_wait_budget.1 0 [("waiting", "waiting")] 2000 (by decide)
     (by omega) (by decide) (by decide)⟩

/-- Claim C3 counterexample: the HA-pair creation POST is fire-and-forget
even for its status code.  With the POST answered `500`, the step does not
abort: the appearance poll still runs (one fetch), the convergence poll still
runs, and the run returns success — line 95 of `step_03_conf_ha.py` never
inspects `response_post`. -/
theorem c3_counterexample :
    haConfiguration ["fw-a", "fw-b"] "GigabitEthernet0/3"
      [⟨"fw-a", "id-a", [⟨"GigabitEthernet0/3", "if-a"⟩]⟩,
       ⟨"fw-b", "id-b", [⟨"GigabitEthernet0/3", "if-b"⟩]⟩]
      "fw-a_HA" (some 500) [[("fw-a_HA", "ha-123")]] [("active", "standby")] =
      .success "ha-123" := by
  decide

/-- Claim C3 as amended: the result of `ha_configuration` is entirely
independent of the status code of the HA-creation POST response — any HTTP
response at all is treated like a 202; only a connection-level exception
aborts (and the deployment POST of step 05, by contrast, does abort on
non-202, see `finalDeploymentCheckMonitor`). -/
theorem c3_post_status_ignored (deviceNames : List String)
    (haInterface pairName : String) (inventory : List HaDevice) (s : Nat)
    (pairsTrace : List (List (String × String)))
    (statusTrace : List (String × String)) :
    haConfiguration deviceNames haInterface inventory pairName (some s)
        pairsTrace statusTrace =
      haConfiguration deviceNames haInterface inventory pairName (some 202)
        pairsTrace statusTrace := rfl

/-- With at most one entry collected, the `devices_list[0]` /
`devices_list[1]` indexing of lines 89–94 raises. -/
theorem buildHaPayload_short (l : List HaEntry) (h : l.length ≤ 1) :
    buildHaPayload l = none := by
  match l with
  | [] => rfl
  | [e] => rfl
  | e0 :: e1 :: rest =>
    simp only [List.length_cons] at h
    omega

/-- The device list collected over a two-device inventory has at most one
entry per device's matching interfaces. -/
theorem resolveDevicesList_pair_length (deviceNames : List String)
    (haInterface : String) (d1 d2 : HaDevice) :
    (resolveDevicesList deviceNames haInterface [d1, d2]).length ≤
      (d1.interfaces.filter (fun i => i.name == haInterface)).length +
      (d2.interfaces.filter (fun i => i.name == haInterface)).length := by
  simp only [resolveDevicesList, List.foldl_cons, List.foldl_nil]
  split <;> split <;>
    simp [List.length_append, List.length_map]

/-- Claim C5 as amended: when the named failover interface is absent from the
physical-interface list of either of the two devices (each device carrying at
most one interface of that name), fewer than two `devices_list` entries are
collected, the payload indexing of lines 89–94 raises `IndexError` — which
escapes `ha_configuration` (it catches only `RequestException`) into
`execute`'s blanket handler — and the step fails through that generic
crash exit, with no creation POST submitted and no typed
`InterfaceNotFound` error anywhere. -/
theorem c5_missing_interface_crashes (deviceNames : List String)
    (haInterface pairName : String) (d1 d2 : HaDevice)
    (postResponse : Option Nat) (pairsTrace : List (List (String × String)))
    (statusTrace : List (String × String))
    (h1 : (d1.interfaces.filter (fun i => i.name == haInterface)).length ≤ 1)
    (h2 : (d2.interfaces.filter (fun i => i.name == haInterface)).length ≤ 1)
    (h0 : (d1.interfaces.filter (fun i => i.name == haInterface)).length = 0 ∨
          (d2.interfaces.filter (fun i => i.name == haInterface)).length = 0) :
    haConfiguration deviceNames haInterface [d1, d2] pairName postResponse
      pairsTrace statusTrace = .pythonError := by
  have hlen := resolveDevicesList_pair_length deviceNames haInterface d1 d2
  have hnone : buildHaPayload
      (resolveDevicesList deviceNames haInterface [d1, d2]) = none :=
    buildHaPayload_short _ (by rcases h0 with h0 | h0 <;> omega)
  simp [haConfiguration, hnone]

/-- Claim C5 counterexample: with `GigabitEthernet0/3` absent on the first
device, the run exits through `pythonError` — the `IndexError` crash caught
by the blanket handler — and not through the typed `errInterfaceNotFound`
exit the claim asserts (which no code path produces). -/
theorem c5_counterexample :
    haConfiguration ["fw-a", "fw-b"] "GigabitEthernet0/3"
      [⟨"fw-a", "id-a", [⟨"Management0/0", "if-m"⟩]⟩,
       ⟨"fw-b", "id-b", [⟨"GigabitEthernet0/3", "if-b"⟩]⟩]
      "fw-a_HA" (some 202) [[("fw-a_HA", "ha-123")]] [("active", "standby")] =
      .pythonError := by
  decide

/-- Witness for the amended C5: interface missing on the second device. -/
theorem c5_witness :
    haConfiguration ["fw-a", "fw-b"] "GigabitEthernet0/3"
      [⟨"fw-a", "id-a", [⟨"GigabitEthernet0/3", "if-a"⟩]⟩,
       ⟨"fw-b", "id-b", [⟨"GigabitEthernet0/0", "if-x"⟩]⟩]
      "fw-a_HA" (some 202) [[("fw-a_HA", "ha-123")]] [("active", "standby")] =
      .pythonError :=
  c5_missing_interface_crashes ["fw-a", "fw-b"] "GigabitEthernet0/3" "fw-a_HA"
    ⟨"fw-a", "id-a", [⟨"GigabitEthernet0/3", "if-a"⟩]⟩
    ⟨"fw-b", "id-b", [⟨"GigabitEthernet0/0", "if-x"⟩]⟩
    (some 202) [[("fw-a_HA", "ha-123")]] [("active", "standby")]
    (by decide) (by decide) (by decide)

/-- A non-terminal prefix of the job-history trace is passed through at ten
seconds per poll, as long as the while-guard budget is not exhausted. -/
theorem monitorLoop_skip (targetId : String) (pre : List (Option (List JobDev))) :
    ∀ (tail : List (Option (List JobDev))) (c : Nat),
      (∀ o ∈ pre, nonTerminalObs targetId o = true) →
      c + 10 * pre.length < 300 →
      monitorLoop targetId c (pre ++ tail) =
        monitorLoop targetId (c + 10 * pre.length) tail := by
  induction pre with
  | nil => intro tail c _ _; simp
  | cons o pre ih =>
    intro tail c hnt hc
    have ho := hnt o (List.mem_cons_self o pre)
    have hlt : ¬ (300 ≤ c) := by omega
    have harith : c + 10 + 10 * pre.length = c + 10 * (pre.length + 1) := by omega
    have ihh := ih tail (c + 10)
      (fun z hz => hnt z (List.mem_cons_of_mem o hz))
      (by simp only [List.length_cons] at hc; omega)
    cases o with
    | none =>
      simp only [List.cons_append, monitorLoop, hlt, ite_false, if_false,
        List.append_eq, List.length_cons]
      rw [ihh, harith]
    | some devs =>
      have hscan : scanDevices targetId devs = none := by
        simpa [nonTerminalObs] using ho
      simp only [List.cons_append, monitorLoop, hlt, ite_false, if_false, hscan,
        List.append_eq, List.length_cons]
      rw [ihh, harith]

/-- A wholly non-terminal trace long enough to exhaust the 300-second budget
drives the monitoring loop to its while-guard exit. -/
theorem monitorLoop_timeout (targetId : String) (trace : List (Option (List JobDev))) :
    ∀ (c : Nat),
      (∀ o ∈ trace, nonTerminalObs targetId o = true) →
      300 ≤ c + 10 * trace.length →
      monitorLoop targetId c trace = .timedOut := by
  induction trace with
  | nil =>
    intro c _ hc
    simp only [List.length_nil, Nat.mul_zero, Nat.add_zero] at hc
    simp [monitorLoop, hc]
  | cons o rest ih =>
    intro c hnt hc
    by_cases h300 : 300 ≤ c
    · cases o <;> simp [monitorLoop, h300]
    · have ho := hnt o (List.mem_cons_self o rest)
      have ihh := ih (c + 10)
        (fun z hz => hnt z (List.mem_cons_of_mem o hz))
        (by
          simp only [List.length_cons] at hc
          omega)
      cases o with
      | none => simpa [monitorLoop, h300] using ihh
      | some devs =>
        have hscan : scanDevices targetId devs = none := by
          simpa [nonTerminalObs] using ho
        simpa [monitorLoop, h300, hscan] using ihh

/-- Claim C1 counterexample: when no terminal status is observed within the
300-second budget (here 31 polls of `IN_PROGRESS`), `final_deployment_check`
does not return a timeout error — the `while` loop merely exhausts its
budget and control falls through to the `return True` of line 219, so the
operation reports success. -/
theorem c1_counterexample :
    finalDeploymentCheckMonitor "uuid-1" 202
      (List.replicate 31 (some [⟨"uuid-1", "fw-a", "IN_PROGRESS"⟩])) =
      .success := by
  decide

/-- Claim C1 as amended: in the deployment-monitoring loop, the first
job-history entry reporting the target device `SUCCEEDED` returns success and
the first reporting `FAILED` returns the deploy-failed error, each on that
very poll; but when neither terminal status is observed within the
300-second budget the operation returns success (the loop falls through to
`return True`), not a timeout error. -/
theorem c1_deployment_monitor (targetId : String) :
    (∀ (pre suff : List (Option (List JobDev))) (devs : List JobDev),
      (∀ o ∈ pre, nonTerminalObs targetId o = true) →
      10 * pre.length < 300 →
      scanDevices targetId devs = some true →
      finalDeploymentCheckMonitor targetId 202 (pre ++ some devs :: suff) =
        .success) ∧
    (∀ (pre suff : List (Option (List JobDev))) (devs : List JobDev),
      (∀ o ∈ pre, nonTerminalObs targetId o = true) →
      10 * pre.length < 300 →
      scanDevices targetId devs = some false →
      finalDeploymentCheckMonitor targetId 202 (pre ++ some devs :: suff) =
        .deployFailed) ∧
    (∀ (trace : List (Option (List JobDev))),
      (∀ o ∈ trace, nonTerminalObs targetId o = true) →
      30 ≤ trace.length →
      finalDeploymentCheckMonitor targetId 202 trace = .success) := by
  refine ⟨?_, ?_, ?_⟩
  · intro pre suff devs hnt hc hscan
    have hskip := monitorLoop_skip targetId pre (some devs :: suff) 0 hnt
      (by omega)
    have hstep : monitorLoop targetId (10 * pre.length)
        (some devs :: suff) = .succeeded := by
      have hlt : ¬ (300 ≤ 10 * pre.length) := by omega
      simp [monitorLoop, hlt, hscan]
    simp [finalDeploymentCheckMonitor, hskip, hstep]
  · intro pre suff devs hnt hc hscan
    have hskip := monitorLoop_skip targetId pre (some devs :: suff) 0 hnt
      (by omega)
    have hstep : monitorLoop targetId (10 * pre.length)
        (some devs :: suff) = .failed := by
      have hlt : ¬ (300 ≤ 10 * pre.length) := by omega
      simp [monitorLoop, hlt, hscan]
    simp [finalDeploymentCheckMonitor, hskip, hstep]
  · intro trace hnt hlen
    have htime := monitorLoop_timeout targetId trace 0 hnt (by omega)
    simp [finalDeploymentCheckMonitor, htime]

/-- Witness for the amended C1: a success run (one swallowed fetch error, one
in-progress poll, then `SUCCEEDED`), a failure run (in-progress then
`FAILED`), and a 30-poll non-terminal run that exits as success. -/
theorem c1_witness :
    finalDeploymentCheckMonitor "uuid-1" 202
      [none, some [⟨"uuid-1", "fw-a", "IN_PROGRESS"⟩],
       some [⟨"uuid-1", "fw-a", "SUCCEEDED"⟩]] = .success ∧
    finalDeploymentCheckMonitor "uuid-1" 202
      [some [⟨"uuid-1", "fw-a", "IN_PROGRESS"⟩],
       some [⟨"uuid-1", "fw-a", "FAILED"⟩]] = .deployFailed ∧
    finalDeploymentCheckMonitor "uuid-1" 202
      (List.replicate 30 (some [⟨"other", "fw-b", "SUCCEEDED"⟩])) = .success :=
  ⟨(c1_deployment_monitor "uuid-1").1
      [none, some [⟨"uuid-1", "fw-a", "IN_PROGRESS"⟩]] []
      [⟨"uuid-1", "fw-a", "SUCCEEDED"⟩] (by decide) (by decide) (by decide),
   (c1_deployment_monitor "uuid-1").2.1
      [some [⟨"uuid-1", "fw-a", "IN_PROGRESS"⟩]] []
      [⟨"uuid-1", "fw-a", "FAILED"⟩] (by decide) (by decide) (by decide),
   (c1_deployment_monitor "uuid-1").2.2
      (List.replicate 30 (some [⟨"other", "fw-b", "SUCCEEDED"⟩]))
      (by decide) (by decide)⟩

end FtdJenkins
